import Mathlib

/-!
Verification of the supersonic / granite PR-orchestration library.

The definitions below are a shallow embedding of the Python sources:
* `Supersonic.create_pr`, `Supersonic._prepare_pr_config` and
  `Supersonic.create_pr_from_content` (src/supersonic/core/pr.py),
* `GitHubAPI.create_branch` and the deletion branch of
  `GitHubAPI.update_file` (src/supersonic/core/github.py),
* `DiffParser.parse` (src/granite/utils/git.py).

Remote calls are modelled by an `Api` record of response functions; the
orchestrator is a pure function that also returns the ordered trace of
remote calls it issued.  Python exceptions become `Except` values whose
error component carries the exception's message string.
-/

set_option autoImplicit false
set_option maxRecDepth 10000

namespace PyStr

/-!  Executable models of the Python string operations the sources use
(`str.startswith`, slicing, `str.split`, `str.splitlines`, `str.join`,
`int()`'s strip-and-digits parse), written over `String.data` so that they
evaluate by kernel reduction. -/

/-- `s.startswith(pre)`. -/
def pyStartsWith (s pre : String) : Bool :=
  pre.data.isPrefixOf s.data

/-- `s[n:]`. -/
def pyDrop (s : String) (n : Nat) : String :=
  ⟨s.data.drop n⟩

/-- Worker for `pySplit`: the fuel only bounds the number of steps — each
step consumes at least one character, so `l.length` fuel is never
exhausted. -/
def pySplitFuel (sep : List Char) : Nat → List Char → List Char → List (List Char)
  | _, [], acc => [acc.reverse]
  | 0, l, acc => [acc.reverse ++ l]
  | fuel + 1, c :: rest, acc =>
    if sep.isPrefixOf (c :: rest) then
      acc.reverse :: pySplitFuel sep fuel (List.drop sep.length (c :: rest)) []
    else
      pySplitFuel sep fuel rest (c :: acc)

/-- `s.split(sep)` for a non-empty separator: all pieces, empty ones
included. -/
def pySplit (s sep : String) : List String :=
  (pySplitFuel sep.data s.data.length s.data []).map String.mk

/-- `sep.join(parts)`. -/
def pyJoin (sep : String) : List String → String
  | [] => ""
  | [x] => x
  | x :: rest => x ++ sep ++ pyJoin sep rest

/-- Python `str.isspace` for the characters `int()` strips. -/
def isPySpace (c : Char) : Bool :=
  c = ' ' || c = '\t' || c = '\n' || c = '\x0d' || c = '\x0b' || c = '\x0c'

/-- `s.strip()`. -/
def pyStrip (s : String) : String :=
  ⟨((s.data.dropWhile isPySpace).reverse.dropWhile isPySpace).reverse⟩

/-- The decimal value of a non-empty all-digit character list. -/
def digitsToNat (l : List Char) : Option Nat :=
  if l ≠ [] && l.all Char.isDigit then
    some (l.foldl (fun n c => n * 10 + (c.toNat - Char.toNat '0')) 0)
  else none

end PyStr

open PyStr

namespace Supersonic

/-- Python exceptions that reach the library's callers, tagged by their
Python class (`ValueError`, `TypeError`, `GitHubError`) and carrying the
message string. -/
inductive PyError where
  | valueError (msg : String)
  | typeError (msg : String)
  | gitHubError (msg : String)
  deriving Repr, DecidableEq

/-- `str(e)` of an exception: each of the error classes renders as its
message. -/
def PyError.str : PyError → String
  | .valueError m => m
  | .typeError m => m
  | .gitHubError m => m

/-- A Python keyword-argument value, restricted to the shapes the PR
configuration accepts (strings, booleans, lists of strings). -/
inductive KwVal where
  | s (v : String)
  | b (v : Bool)
  | list (v : List String)
  deriving Repr, DecidableEq

/-- Modelled from the spec: `PRConfig` lives in src/supersonic/core/config.py,
which is not among the sources; fields and defaults follow §3 of the spec
(title, description empty; base_branch "main"; draft false; empty label /
reviewer / team-reviewer sequences; auto_merge false; merge_strategy
"squash"). -/
structure PRConfig where
  title : String := ""
  description : String := ""
  base_branch : String := "main"
  draft : Bool := false
  labels : List String := []
  reviewers : List String := []
  team_reviewers : List String := []
  auto_merge : Bool := false
  merge_strategy : String := "squash"
  delete_branch_on_merge : Bool := false
  deriving Repr, DecidableEq

/-- The `config` argument of `create_pr`: either a `PRConfig` object or a
dict of keyword values. -/
inductive ConfigArg where
  | obj (c : PRConfig)
  | dict (d : List (String × KwVal))
  deriving Repr, DecidableEq

/-- Modelled from the spec: applying one keyword argument in
`PRConfig(**kwargs)` (src/supersonic/core/config.py is not among the
sources).  Recognized keys follow §4.1; an unknown key or a wrongly typed
value raises. -/
def applyKw (c : PRConfig) : String × KwVal → Except PyError PRConfig
  | ("title", .s v) => .ok { c with title := v }
  | ("description", .s v) => .ok { c with description := v }
  | ("base_branch", .s v) => .ok { c with base_branch := v }
  | ("draft", .b v) => .ok { c with draft := v }
  | ("labels", .list v) => .ok { c with labels := v }
  | ("reviewers", .list v) => .ok { c with reviewers := v }
  | ("team_reviewers", .list v) => .ok { c with team_reviewers := v }
  | ("auto_merge", .b v) => .ok { c with auto_merge := v }
  | ("merge_strategy", .s v) => .ok { c with merge_strategy := v }
  | ("delete_branch_on_merge", .b v) => .ok { c with delete_branch_on_merge := v }
  | (k, _) => .error (.typeError ("unexpected keyword argument: " ++ k))

/-- Modelled from the spec: `PRConfig(**kwargs)` builds a configuration from
defaults by applying each keyword in order. -/
def prConfigOfKwargs (kws : List (String × KwVal)) : Except PyError PRConfig :=
  kws.foldlM applyKw {}

/-- `Supersonic._prepare_pr_config` (src/supersonic/core/pr.py): if a config
argument is given together with any keyword arguments it raises ValueError;
a dict config is turned into a `PRConfig`; with only keywords a `PRConfig`
is built from them; with neither, the instance default is used. -/
def prepare_pr_config (defaultCfg : PRConfig) (pr_config : Option ConfigArg)
    (kwargs : List (String × KwVal)) : Except PyError PRConfig :=
  match pr_config with
  | some arg =>
    if kwargs.isEmpty then
      match arg with
      | .obj c => .ok c
      | .dict d => prConfigOfKwargs d
    else
      .error (.valueError
        "Cannot provide both PRConfig and keyword arguments. Choose one approach.")
  | none =>
    if kwargs.isEmpty then .ok defaultCfg else prConfigOfKwargs kwargs

/-- One remote call issued through `GitHubAPI`, with its arguments.
`addTeamReviewers` is part of the capability surface (§6 of the spec and
the tests) even though `create_pr` never issues it. -/
inductive Call where
  | createBranch (repo branch base : String)
  | updateFile (repo path : String) (content : Option String) (message branch : String)
  | createPull (repo title body head base : String) (draft : Bool)
  | addLabels (repo : String) (pr : Int) (labels : List String)
  | addReviewers (repo : String) (pr : Int) (reviewers : List String)
  | addTeamReviewers (repo : String) (pr : Int) (teams : List String)
  | enableAutoMerge (repo : String) (pr : Int) (mergeMethod : String)
  deriving Repr, DecidableEq

def Call.isBranch : Call → Bool
  | .createBranch .. => true
  | _ => false

def Call.isUpdate : Call → Bool
  | .updateFile .. => true
  | _ => false

def Call.isPull : Call → Bool
  | .createPull .. => true
  | _ => false

/-- Post-creation metadata attachment calls. -/
def Call.isMeta : Call → Bool
  | .addLabels .. => true
  | .addReviewers .. => true
  | .addTeamReviewers .. => true
  | .enableAutoMerge .. => true
  | _ => false

def Call.isTeamReviewers : Call → Bool
  | .addTeamReviewers .. => true
  | _ => false

/-- Responses of the remote hosting service to each `GitHubAPI` call the
orchestrator makes; an error value is the message of the exception the
adapter method raises. -/
structure Api where
  createBranch : String → String → String → Except String Unit
  updateFile : String → String → Option String → String → String → Except String Unit
  createPull : String → String → String → String → String → Bool → Except String String
  addLabels : String → Int → List String → Except String Unit
  addReviewers : String → Int → List String → Except String Unit
  enableAutoMerge : String → Int → String → Except String Unit

/-- `f"{self.config.app_name or 'supersonic'}/{timestamp}"`: the generated
branch name (an unset or empty app name falls back to `"supersonic"`). -/
def branchName (appName : Option String) (timestamp : Nat) : String :=
  (match appName with
   | some s => if s = "" then "supersonic" else s
   | none => "supersonic") ++ "/" ++ toString timestamp

/-- The commit message of one change-set entry:
`f"{'Update' if content is not None else 'Delete'} {path}"`. -/
def updMessage (path : String) (content : Option String) : String :=
  (if content.isSome then "Update " else "Delete ") ++ path

/-- The `update_file` call issued for one change-set entry. -/
def updCall (repo branch : String) (e : String × Option String) : Call :=
  .updateFile repo e.1 e.2 (updMessage e.1 e.2) branch

/-- The file-update calls of a whole change set, in iteration order. -/
def updCalls (repo branch : String) (changes : List (String × Option String)) : List Call :=
  changes.map (updCall repo branch)

/-- The per-file loop of `create_pr`: issue one `update_file` call per
change-set entry in order, stopping at the first failure.  Returns the
extended trace and the loop's outcome. -/
def updateLoop (api : Api) (repo branch : String) :
    List (String × Option String) → List Call → List Call × Except String Unit
  | [], tr => (tr, .ok ())
  | (path, content) :: rest, tr =>
    let msg := updMessage path content
    let tr1 := tr ++ [.updateFile repo path content msg branch]
    match api.updateFile repo path content msg branch with
    | .error e => (tr1, .error e)
    | .ok _ => updateLoop api repo branch rest tr1

/-- Python `int(s)`: strip surrounding whitespace, allow one sign, then
decimal digits. -/
def pyIntParse (s : String) : Option Int :=
  let t := pyStrip s
  if pyStartsWith t "-" then
    match digitsToNat (pyDrop t 1).data with
    | some n => some (-(n : Int))
    | none => none
  else
    let t2 := if pyStartsWith t "+" then pyDrop t 1 else t
    match digitsToNat t2.data with
    | some n => some (n : Int)
    | none => none

/-- `pr_url.split("/")[-1]`: the trailing path segment of the URL. -/
def lastSeg (url : String) : String :=
  ((pySplit url "/").getLast?).getD ""

/-- The `ValueError` message of a failed `int()` conversion. -/
def intErrMsg (s : String) : String :=
  "invalid literal for int() with base 10: " ++ "\x27" ++ s ++ "\x27"

/-- One guarded metadata step: issue the call (recording it in the trace)
only when its configuration condition holds, and stop at the first
failure. -/
def runMeta : List (Bool × Call × Except String Unit) → List Call →
    List Call × Except String Unit
  | [], tr => (tr, .ok ())
  | (cond, call, res) :: rest, tr =>
    if cond then
      match res with
      | .error e => (tr ++ [call], .error e)
      | .ok _ => runMeta rest (tr ++ [call])
    else runMeta rest tr

/-- The guarded metadata calls of `create_pr`, in source order: labels when
non-empty, reviewers when non-empty, auto-merge when requested.  No
team-reviewer step appears in the source. -/
def metaSteps (api : Api) (repo : String) (cfg : PRConfig) (n : Int) :
    List (Bool × Call × Except String Unit) :=
  [(!cfg.labels.isEmpty, .addLabels repo n cfg.labels, api.addLabels repo n cfg.labels),
   (!cfg.reviewers.isEmpty, .addReviewers repo n cfg.reviewers,
      api.addReviewers repo n cfg.reviewers),
   (cfg.auto_merge, .enableAutoMerge repo n cfg.merge_strategy,
      api.enableAutoMerge repo n cfg.merge_strategy)]

/-- The metadata-attachment tail of `create_pr` (labels, then reviewers,
then auto-merge; each only when configured, each fatal on failure because
the surrounding `try` wraps any exception). -/
def metadataPhase (api : Api) (repo : String) (cfg : PRConfig) (n : Int)
    (url : String) (tr : List Call) : Except PyError String × List Call :=
  match runMeta (metaSteps api repo cfg n) tr with
  | (tr1, .error e) => (.error (.gitHubError ("Failed to create PR: " ++ e)), tr1)
  | (tr1, .ok _) => (.ok url, tr1)

/-- `Supersonic.create_pr` (src/supersonic/core/pr.py): resolve the
configuration (outside the `try`, so its `ValueError` bubbles up before any
remote call), then create the branch, apply every change, open the PR,
parse the PR number from the URL's trailing segment, and attach the
configured metadata.  Any exception inside the `try` is re-raised as
`GitHubError("Failed to create PR: ...")`.  The second component is the
ordered trace of remote calls issued. -/
def create_pr (api : Api) (appName : Option String) (timestamp : Nat)
    (defaultCfg : PRConfig) (repo : String)
    (changes : List (String × Option String)) (config : Option ConfigArg)
    (kwargs : List (String × KwVal)) : Except PyError String × List Call :=
  match prepare_pr_config defaultCfg config kwargs with
  | .error e => (.error e, [])
  | .ok cfg =>
    let branch := branchName appName timestamp
    let tr0 : List Call := [.createBranch repo branch cfg.base_branch]
    match api.createBranch repo branch cfg.base_branch with
    | .error e => (.error (.gitHubError ("Failed to create PR: " ++ e)), tr0)
    | .ok _ =>
      match updateLoop api repo branch changes tr0 with
      | (tr1, .error e) => (.error (.gitHubError ("Failed to create PR: " ++ e)), tr1)
      | (tr1, .ok _) =>
        let tr2 := tr1 ++ [.createPull repo cfg.title cfg.description branch cfg.base_branch cfg.draft]
        match api.createPull repo cfg.title cfg.description branch cfg.base_branch cfg.draft with
        | .error e => (.error (.gitHubError ("Failed to create PR: " ++ e)), tr2)
        | .ok url =>
          match pyIntParse (lastSeg url) with
          | none =>
            (.error (.gitHubError ("Failed to create PR: " ++ intErrMsg (lastSeg url))), tr2)
          | some n => metadataPhase api repo cfg n url tr2

/-- The fixed set of keyword arguments `create_pr_from_content` accepts. -/
def validKwargKeys : List String :=
  ["title", "draft", "description", "base_branch", "labels", "reviewers",
   "team_reviewers", "merge_strategy", "delete_branch_on_merge", "auto_merge"]

/-- `set(kwargs.keys()) - valid_kwargs`, as the list of offending keys in
first-occurrence order. -/
def unknownKeys (kwargs : List (String × KwVal)) : List String :=
  ((kwargs.map Prod.fst).eraseDups).filter (fun k => ¬ validKwargKeys.contains k)

/-- `Supersonic.create_pr_from_content` (src/supersonic/core/pr.py): reject
unknown keyword arguments with a ValueError naming them, then delegate to
`create_pr` with the single-entry change set and `title`/`draft` folded into
the keyword arguments; non-ValueError failures are wrapped as
`GitHubError("Failed to update content: ...")`. -/
def create_pr_from_content (api : Api) (appName : Option String) (timestamp : Nat)
    (defaultCfg : PRConfig) (repo content upstream_path : String)
    (title : Option String) (draft : Bool)
    (kwargs : List (String × KwVal)) : Except PyError String × List Call :=
  if unknownKeys kwargs ≠ [] then
    (.error (.valueError ("Unknown arguments: " ++ pyJoin ", " (unknownKeys kwargs))), [])
  else
    let inner := create_pr api appName timestamp defaultCfg repo
      [(upstream_path, some content)] none
      ([("title", KwVal.s (title.getD "Update file")), ("draft", KwVal.b draft)] ++ kwargs)
    match inner with
    | (.ok url, tr) => (.ok url, tr)
    | (.error (.valueError m), tr) => (.error (.valueError m), tr)
    | (.error e, tr) => (.error (.gitHubError ("Failed to update content: " ++ e.str)), tr)

end Supersonic

namespace Supersonic

/-! ## `GitHubAPI.create_branch` (src/supersonic/core/github.py)

The remote repository's ref table is an association list from branch name
to commit SHA; `none` for the repository state models a repository the
`get_repo` lookup fails on. -/

/-- The refs of one remote repository: branch name to commit SHA, first
entry wins on lookup. -/
structure RepoRefs where
  refs : List (String × String)
  deriving Repr, DecidableEq

/-- `get_git_ref(f"heads/{b}")`: the SHA the ref points at, when it exists. -/
def findRef (r : RepoRefs) (b : String) : Option String :=
  (r.refs.find? (fun p => p.1 == b)).map Prod.snd

/-- `branch_ref.edit(sha, force=True)`: point every entry of the ref at the
new SHA. -/
def setRef (r : RepoRefs) (b sha : String) : RepoRefs :=
  ⟨r.refs.map (fun p => if p.1 == b then (p.1, sha) else p)⟩

/-- `GitHubAPI.create_branch`: look up the repository and the base ref,
then try `create_git_ref`; when that fails because the reference already
exists, force-update the existing ref to the base SHA instead.  Any other
failure is wrapped as `GitHubError("Failed to create branch: ...")`. -/
def create_branch (repoSt : Option RepoRefs) (branch base : String) :
    Except String RepoRefs :=
  match repoSt with
  | none => .error "Failed to create branch: 404 Not Found"
  | some r =>
    match findRef r base with
    | none => .error "Failed to create branch: 404 Not Found"
    | some sha =>
      match findRef r branch with
      | none => .ok ⟨r.refs ++ [(branch, sha)]⟩
      | some _ => .ok (setRef r branch sha)

/-! ## The deletion branch of `GitHubAPI.update_file`
(src/supersonic/core/github.py)

`update_file` first runs `get_repo`, then — when `content is None` — enters
an inner `try` that looks the path up with `get_contents` and calls
`delete_file`; the inner handler swallows exactly those exceptions whose
message contains `"Not Found"`.  The outer handler wraps everything else
as `GitHubError("Failed to update file: ...")`. -/

/-- `"Not Found" in str(e)`: substring test on the message. -/
def containsNotFound (msg : String) : Bool :=
  decide (List.IsInfix "Not Found".toList msg.toList)

/-- Result of `get_contents`: a file with its blob SHA, or a directory
(`isinstance(contents, List)`). -/
inductive ContentsRes where
  | file (sha : String)
  | dir
  deriving Repr, DecidableEq

/-- The remote responses the deletion branch of `update_file` can observe:
the repository lookup, the path lookup on the branch, and the delete call
(keyed by the blob SHA passed to it). -/
structure DeleteEnv where
  getRepo : Except String Unit
  getContents : Except String ContentsRes
  deleteFile : String → Except String Unit

/-- The body of the inner `try` of the deletion branch: look the path up;
a directory raises `GitHubError(f"Path '{path}' points to a directory")`;
a file is deleted.  `.ok true` means `delete_file` was performed. -/
def delete_attempt (env : DeleteEnv) (path : String) : Except String Bool :=
  match env.getContents with
  | .error e => .error e
  | .ok .dir => .error ("Path " ++ "\x27" ++ path ++ "\x27" ++ " points to a directory")
  | .ok (.file sha) =>
    match env.deleteFile sha with
    | .error e => .error e
    | .ok _ => .ok true

/-- The deletion branch of `GitHubAPI.update_file` (`content is None`):
`get_repo` runs before the inner `try`, so its failure is only wrapped by
the outer handler; inside the inner `try`, an exception whose message
contains `"Not Found"` is suppressed (`.ok false`: success without any
mutation), every other exception is re-raised and wrapped. -/
def update_file_delete (env : DeleteEnv) (path : String) : Except String Bool :=
  match env.getRepo with
  | .error e => .error ("Failed to update file: " ++ e)
  | .ok _ =>
    match delete_attempt env path with
    | .ok performed => .ok performed
    | .error e =>
      if containsNotFound e then .ok false
      else .error ("Failed to update file: " ++ e)

end Supersonic

namespace Granite

/-! ## `DiffParser.parse` (src/granite/utils/git.py)

The simple diff parser: reconstructs each file's new content from the
`+` and context lines of its hunks. -/

/-- Python `str.splitlines()` restricted to `"\n"` separators: like
`splitOn "\n"` but without a final empty piece for a trailing newline. -/
def splitlines (s : String) : List String :=
  let ls := pySplit s "\n"
  if ls.getLast? = some "" then ls.dropLast else ls

/-- `DiffParser._extract_file_path`: `re.match(r"diff --git a/(.*) b/(.*)",
line)` and return group 2 — the greedy first group makes group 2 the text
after the last `" b/"` — or `""` when the pattern does not match. -/
def extract_file_path (line : String) : String :=
  if pyStartsWith line "diff --git a/" then
    let s := pyDrop line "diff --git a/".length
    let parts := pySplit s " b/"
    if parts.length ≥ 2 then (parts.getLast?).getD "" else ""
  else ""

/-- The inner skip loop of `parse`: advance until the next `"@@"` line (or
the end of input). -/
def skipToHunk (ls : List String) : List String :=
  ls.dropWhile (fun l => !pyStartsWith l "@@")

/-- Store `changes[current_file] = content` with dict semantics: replace an
existing key, else append. -/
def dictSet (changes : List (String × String)) (k v : String) : List (String × String) :=
  if changes.any (fun p => p.1 == k) then
    changes.map (fun p => if p.1 == k then (k, v) else p)
  else changes ++ [(k, v)]

/-- `if current_file: changes[current_file] = "\n".join(current_content)` —
an unset or empty (falsy) current file is not flushed. -/
def flush (changes : List (String × String)) (cf : Option String)
    (cc : List String) : List (String × String) :=
  match cf with
  | some f => if f = "" then changes else dictSet changes f (pyJoin "\n" cc)
  | none => changes

/-- The main loop of `DiffParser.parse`, one step per remaining line:
a `diff --git` line flushes the previous file, starts a new one and skips
to the first `@@` line; an `@@` line is consumed; a `+` line (but not
`+++`) contributes its tail; any line not starting with `-` contributes
unchanged as context.  The Python skip loop starts at the `diff --git`
line itself, which never starts with `"@@"`, so it always advances past
it first: skipping from `rest` is the same computation.  The fuel only
bounds the iteration count — every step consumes at least one line, so
`length` fuel is never exhausted. -/
def parseLoop : Nat → List String → Option String → List String →
    List (String × String) → List (String × String)
  | _, [], cf, cc, changes => flush changes cf cc
  | 0, _ :: _, cf, cc, changes => flush changes cf cc
  | fuel + 1, line :: rest, cf, cc, changes =>
    if pyStartsWith line "diff --git" then
      parseLoop fuel (skipToHunk rest) (some (extract_file_path line)) []
        (flush changes cf cc)
    else if pyStartsWith line "@@" then
      parseLoop fuel rest cf cc changes
    else if pyStartsWith line "+" && !pyStartsWith line "+++" then
      parseLoop fuel rest cf (cc ++ [pyDrop line 1]) changes
    else if !pyStartsWith line "-" && !pyStartsWith line "---" then
      parseLoop fuel rest cf (cc ++ [line]) changes
    else
      parseLoop fuel rest cf cc changes

/-- `DiffParser.parse`: split the diff into lines and run the loop with no
current file and an empty accumulator. -/
def parse (diff_content : String) : List (String × String) :=
  parseLoop (splitlines diff_content).length (splitlines diff_content) none [] []

end Granite

/-!  ## Theorems -/

namespace Supersonic

theorem updateLoop_ok_trace (api : Api) (repo branch : String) :
    ∀ (changes : List (String × Option String)) (tr tr1 : List Call),
    updateLoop api repo branch changes tr = (tr1, .ok ()) →
    tr1 = tr ++ updCalls repo branch changes := by
  intro changes
  induction changes with
  | nil =>
    intro tr tr1 h
    simp only [updateLoop] at h
    obtain ⟨rfl, -⟩ := Prod.mk.injEq .. ▸ h
    simp [updCalls]
  | cons e rest ih =>
    intro tr tr1 h
    obtain ⟨path, content⟩ := e
    simp only [updateLoop] at h
    cases hres : api.updateFile repo path content (updMessage path content) branch with
    | error e0 => rw [hres] at h; simp at h
    | ok u =>
      rw [hres] at h
      have := ih _ _ h
      simp [this, updCalls, updCall, List.append_assoc]

theorem runMeta_trace : ∀ (steps : List (Bool × Call × Except String Unit)) (tr : List Call),
    ∃ ms, (runMeta steps tr).1 = tr ++ ms ∧ ∀ c ∈ ms, c ∈ steps.map (fun x => x.2.1) := by
  intro steps
  induction steps with
  | nil => intro tr; exact ⟨[], by simp [runMeta], by simp⟩
  | cons s rest ih =>
    intro tr
    obtain ⟨cond, call, res⟩ := s
    by_cases hc : cond
    · cases hres : res with
      | error e =>
        refine ⟨[call], ?_, ?_⟩
        · simp [runMeta, hc, hres]
        · simp
      | ok u =>
        obtain ⟨ms, hm, hmem⟩ := ih (tr ++ [call])
        refine ⟨call :: ms, ?_, ?_⟩
        · simp [runMeta, hc, hres, hm]
        · intro c hcmem
          rcases List.mem_cons.mp hcmem with h1 | h1
          · simp [h1]
          · simp only [List.map_cons, List.mem_cons]
            exact Or.inr (hmem c h1)
    · obtain ⟨ms, hm, hmem⟩ := ih tr
      refine ⟨ms, by simp [runMeta, hc, hm], ?_⟩
      intro c hcmem
      simp only [List.map_cons, List.mem_cons]
      exact Or.inr (hmem c hcmem)

theorem metaSteps_calls_meta (api : Api) (repo : String) (cfg : PRConfig) (n : Int) :
    ∀ c ∈ (metaSteps api repo cfg n).map (fun x => x.2.1),
      c.isMeta = true ∧ c.isTeamReviewers = false := by
  intro c hc
  simp [metaSteps] at hc
  rcases hc with rfl | rfl | rfl <;> exact ⟨rfl, rfl⟩

theorem metadataPhase_trace (api : Api) (repo : String) (cfg : PRConfig) (n : Int)
    (url : String) (tr : List Call) :
    ∃ ms, (metadataPhase api repo cfg n url tr).2 = tr ++ ms ∧
      ∀ c ∈ ms, c.isMeta = true ∧ c.isTeamReviewers = false := by
  obtain ⟨ms, hm, hmem⟩ := runMeta_trace (metaSteps api repo cfg n) tr
  refine ⟨ms, ?_, fun c hc => metaSteps_calls_meta api repo cfg n c (hmem c hc)⟩
  simp only [metadataPhase]
  cases hr : runMeta (metaSteps api repo cfg n) tr with
  | mk tr1 res =>
    cases res <;> simp_all

theorem create_pr_ok_trace (api : Api) (appName : Option String) (ts : Nat)
    (defaultCfg : PRConfig) (repo : String) (changes : List (String × Option String))
    (config : Option ConfigArg) (kwargs : List (String × KwVal)) (url : String)
    (tr : List Call)
    (h : create_pr api appName ts defaultCfg repo changes config kwargs = (.ok url, tr)) :
    ∃ cfg ms,
      prepare_pr_config defaultCfg config kwargs = .ok cfg ∧
      tr = .createBranch repo (branchName appName ts) cfg.base_branch ::
           (updCalls repo (branchName appName ts) changes ++
            .createPull repo cfg.title cfg.description (branchName appName ts)
              cfg.base_branch cfg.draft :: ms) ∧
      (∀ c ∈ ms, c.isMeta = true ∧ c.isTeamReviewers = false) := by
  simp only [create_pr] at h
  split at h
  · exact absurd h (by simp)
  next cfg hprep =>
    split at h
    · exact absurd h (by simp)
    next u hcb =>
      split at h
      next tr1 e hul => exact absurd h (by simp)
      next tr1 u2 hul =>
        have htr1 := updateLoop_ok_trace api repo (branchName appName ts) changes _ _ hul
        split at h
        · exact absurd h (by simp)
        next url0 hcp =>
          split at h
          · exact absurd h (by simp)
          next n hpi =>
            obtain ⟨ms, hm, hmem⟩ := metadataPhase_trace api repo cfg n url0
              (tr1 ++ [.createPull repo cfg.title cfg.description (branchName appName ts)
                cfg.base_branch cfg.draft])
            refine ⟨cfg, ms, hprep, ?_, hmem⟩
            have htr : tr = tr1 ++ [Call.createPull repo cfg.title cfg.description
                (branchName appName ts) cfg.base_branch cfg.draft] ++ ms := by
              rw [← hm, h]
            rw [htr, htr1]
            simp

theorem updCalls_isUpdate (repo branch : String) (changes : List (String × Option String)) :
    ∀ c ∈ updCalls repo branch changes,
      c.isUpdate = true ∧ c.isBranch = false ∧ c.isPull = false := by
  intro c hc
  simp only [updCalls, List.mem_map] at hc
  obtain ⟨e, -, rfl⟩ := hc
  simp [updCall, Call.isUpdate, Call.isBranch, Call.isPull]

theorem isMeta_kinds (c : Call) (h : c.isMeta = true) :
    c.isBranch = false ∧ c.isUpdate = false ∧ c.isPull = false := by
  cases c <;> simp_all [Call.isMeta, Call.isBranch, Call.isUpdate, Call.isPull]

/-- C1: a successful `create_pr` run issues exactly one branch-create call
first, then exactly the change set's file-update calls in the change set's
iteration order, then exactly one PR-create call, followed only by
metadata-attachment calls. -/
theorem create_pr_call_discipline (api : Api) (appName : Option String) (ts : Nat)
    (defaultCfg : PRConfig) (repo : String) (changes : List (String × Option String))
    (config : Option ConfigArg) (kwargs : List (String × KwVal)) (url : String)
    (tr : List Call)
    (hne : changes ≠ [])
    (h : create_pr api appName ts defaultCfg repo changes config kwargs = (.ok url, tr)) :
    ∃ (cfg : PRConfig) (ms : List Call),
      tr = .createBranch repo (branchName appName ts) cfg.base_branch ::
           (updCalls repo (branchName appName ts) changes ++
            .createPull repo cfg.title cfg.description (branchName appName ts)
              cfg.base_branch cfg.draft :: ms) ∧
      (∀ c ∈ ms, c.isMeta = true) ∧
      (tr.filter Call.isBranch).length = 1 ∧
      tr.filter Call.isUpdate = updCalls repo (branchName appName ts) changes ∧
      (tr.filter Call.isPull).length = 1 := by
  obtain ⟨cfg, ms, hprep, htr, hmem⟩ := create_pr_ok_trace api appName ts defaultCfg repo
    changes config kwargs url tr h
  have hupd := updCalls_isUpdate repo (branchName appName ts) changes
  have hms : ∀ c ∈ ms, c.isBranch = false ∧ c.isUpdate = false ∧ c.isPull = false :=
    fun c hc => isMeta_kinds c (hmem c hc).1
  refine ⟨cfg, ms, htr, fun c hc => (hmem c hc).1, ?_, ?_, ?_⟩
  · rw [htr]
    simp only [List.filter_cons, List.filter_append, Call.isBranch]
    rw [List.filter_eq_nil_iff.mpr (fun c hc => by simp [(hupd c hc).2.1]),
        List.filter_eq_nil_iff.mpr (fun c hc => by simp [(hms c hc).1])]
    simp
  · rw [htr]
    simp only [List.filter_cons, List.filter_append, Call.isUpdate]
    rw [List.filter_eq_self.mpr (fun c hc => (hupd c hc).1),
        List.filter_eq_nil_iff.mpr (fun c hc => by simp [(hms c hc).2.1])]
    simp
  · rw [htr]
    simp only [List.filter_cons, List.filter_append, Call.isPull]
    rw [List.filter_eq_nil_iff.mpr (fun c hc => by simp [(hupd c hc).2.2]),
        List.filter_eq_nil_iff.mpr (fun c hc => by simp [(hms c hc).2.2])]
    simp

end Supersonic

namespace Supersonic

/-- C2: when the second of three file updates fails, `create_pr` raises a
wrapped `GitHubError` and the trace ends at the failing second update —
the first update was issued and not rolled back, the third update and the
PR-create never happen. -/
theorem create_pr_aborts_on_second_update_failure (api : Api) (appName : Option String)
    (ts : Nat) (defaultCfg : PRConfig) (repo : String) (cfg : PRConfig)
    (p1 p2 p3 : String) (c1 c2 c3 : Option String) (e : String)
    (hk31 : p3 ≠ p1) (hk32 : p3 ≠ p2)
    (hcb : api.createBranch repo (branchName appName ts) cfg.base_branch = .ok ())
    (h1 : api.updateFile repo p1 c1 (updMessage p1 c1) (branchName appName ts) = .ok ())
    (h2 : api.updateFile repo p2 c2 (updMessage p2 c2) (branchName appName ts) = .error e) :
    create_pr api appName ts defaultCfg repo [(p1, c1), (p2, c2), (p3, c3)]
        (some (.obj cfg)) [] =
      (.error (.gitHubError ("Failed to create PR: " ++ e)),
       [.createBranch repo (branchName appName ts) cfg.base_branch,
        updCall repo (branchName appName ts) (p1, c1),
        updCall repo (branchName appName ts) (p2, c2)]) ∧
    updCall repo (branchName appName ts) (p1, c1) ∈
      [Call.createBranch repo (branchName appName ts) cfg.base_branch,
       updCall repo (branchName appName ts) (p1, c1),
       updCall repo (branchName appName ts) (p2, c2)] ∧
    updCall repo (branchName appName ts) (p3, c3) ∉
      [Call.createBranch repo (branchName appName ts) cfg.base_branch,
       updCall repo (branchName appName ts) (p1, c1),
       updCall repo (branchName appName ts) (p2, c2)] ∧
    ∀ c ∈ [Call.createBranch repo (branchName appName ts) cfg.base_branch,
           updCall repo (branchName appName ts) (p1, c1),
           updCall repo (branchName appName ts) (p2, c2)], c.isPull = false := by
  refine ⟨?_, ?_, ?_, ?_⟩
  · simp only [create_pr, prepare_pr_config, List.isEmpty_nil, if_true, updateLoop,
      updCall, hcb, h1, h2]
    simp
  · simp
  · simp only [List.mem_cons, List.mem_singleton, updCall, List.not_mem_nil, or_false]
    push_neg
    refine ⟨by simp [Call.createBranch.injEq], ?_, ?_⟩ <;>
      (intro hEq; injection hEq with a b c d; exact absurd b (by simp_all))
  · intro c hc
    rcases List.mem_cons.mp hc with rfl | hc2
    · rfl
    · rcases List.mem_cons.mp hc2 with rfl | hc3
      · rfl
      · rcases List.mem_cons.mp hc3 with rfl | hc4
        · rfl
        · simp at hc4

/-- C3: an explicit config object together with any keyword override makes
configuration resolution raise the conflict `ValueError` — whatever the
values — and `create_pr` re-raises it with an empty call trace. -/
theorem config_conflict_always_fails (api : Api) (appName : Option String) (ts : Nat)
    (defaultCfg : PRConfig) (repo : String) (changes : List (String × Option String))
    (cfgArg : ConfigArg) (kwargs : List (String × KwVal))
    (hkw : kwargs ≠ []) :
    prepare_pr_config defaultCfg (some cfgArg) kwargs =
      .error (.valueError
        "Cannot provide both PRConfig and keyword arguments. Choose one approach.") ∧
    create_pr api appName ts defaultCfg repo changes (some cfgArg) kwargs =
      (.error (.valueError
        "Cannot provide both PRConfig and keyword arguments. Choose one approach."), []) := by
  have hprep : prepare_pr_config defaultCfg (some cfgArg) kwargs =
      .error (.valueError
        "Cannot provide both PRConfig and keyword arguments. Choose one approach.") := by
    simp [prepare_pr_config, List.isEmpty_eq_false.mpr hkw]
  exact ⟨hprep, by simp [create_pr, hprep]⟩

/-- C9: `create_pr_from_content` rejects a keyword argument outside the
fixed recognized set with a `ValueError` naming the unknown keys, before
any remote call is made. -/
theorem unknown_kwargs_rejected (api : Api) (appName : Option String) (ts : Nat)
    (defaultCfg : PRConfig) (repo content upstream_path : String)
    (title : Option String) (draft : Bool) (kwargs : List (String × KwVal))
    (hunk : unknownKeys kwargs ≠ []) :
    create_pr_from_content api appName ts defaultCfg repo content upstream_path
        title draft kwargs =
      (.error (.valueError
        ("Unknown arguments: " ++ pyJoin ", " (unknownKeys kwargs))), []) := by
  simp [create_pr_from_content, hunk]

end Supersonic

namespace Supersonic

/-- `setRef` keeps every key and only changes the value stored under the
edited branch. -/
theorem findRef_setRef (r : RepoRefs) (b sha x : String) :
    findRef (setRef r b sha) x =
      if x = b then (findRef r x).map (fun _ => sha) else findRef r x := by
  simp only [findRef, setRef, List.find?_map]
  have hcomp : ((fun p : String × String => p.1 == x) ∘
      (fun p : String × String => if p.1 == b then (p.1, sha) else p)) =
      (fun p : String × String => p.1 == x) := by
    funext p
    by_cases hp : p.1 = b <;> simp [hp]
  rw [hcomp]
  cases hf : List.find? (fun p : String × String => p.1 == x) r.refs with
  | none => simp
  | some p =>
    have hpx : p.1 = x := by simpa using List.find?_some hf
    by_cases hxb : x = b
    · simp [Option.map_map, hpx, hxb]
    · simp [Option.map_map, hpx, hxb]

/-- Ref lookup in a table extended on the right. -/
theorem findRef_append_single (l : List (String × String)) (b sha x : String) :
    findRef ⟨l ++ [(b, sha)]⟩ x =
      (findRef ⟨l⟩ x).or (if x = b then some sha else none) := by
  simp only [findRef, List.find?_append]
  cases hf : List.find? (fun p : String × String => p.1 == x) l with
  | none =>
    by_cases hxb : x = b
    · subst hxb
      simp [List.find?, Option.or]
    · have hbx : (b == x) = false := by
        simp only [beq_eq_false_iff_ne]
        exact Ne.symm hxb
      simp [List.find?, hbx, hxb, Option.or]
  | some p => simp [Option.or]

/-- C7: re-running `create_branch` with the same branch and base succeeds
and leaves the branch pointing at the same SHA as after the first run:
the second run force-updates the now-existing ref to the base SHA instead
of failing. -/
theorem create_branch_idempotent (r : RepoRefs) (branch base : String) (r1 : RepoRefs)
    (h : create_branch (some r) branch base = .ok r1) :
    ∃ r2, create_branch (some r1) branch base = .ok r2 ∧
      findRef r2 branch = findRef r1 branch := by
  simp only [create_branch] at h
  cases hb : findRef r base with
  | none => rw [hb] at h; simp at h
  | some sha =>
    rw [hb] at h
    cases hbr : findRef r branch with
    | none =>
      rw [hbr] at h
      simp only [Except.ok.injEq] at h
      have hb1 : findRef r1 base = some sha := by
        rw [← h, findRef_append_single]
        by_cases hbb : base = branch
        · rw [hbb, hbr] at hb; cases hb
        · simp [hb, Option.or]
      have hbr1 : findRef r1 branch = some sha := by
        rw [← h, findRef_append_single, hbr]
        simp [Option.or]
      refine ⟨setRef r1 branch sha, ?_, ?_⟩
      · simp only [create_branch, hb1, hbr1]
      · rw [findRef_setRef, hbr1]
        simp
    | some old =>
      rw [hbr] at h
      simp only [Except.ok.injEq] at h
      have hbr1 : findRef r1 branch = some sha := by
        rw [← h, findRef_setRef, hbr]
        simp
      have hb1 : findRef r1 base = some sha := by
        by_cases hbb : base = branch
        · rw [hbb, hbr1]
        · rw [← h, findRef_setRef]
          simp [hbb, hb]
      refine ⟨setRef r1 branch sha, ?_, ?_⟩
      · simp only [create_branch, hb1, hbr1]
      · rw [findRef_setRef, hbr1]
        simp

/-- C10 (amended): inside the deletion attempt any failure whose message
contains `"Not Found"` is suppressed as a no-op success, whichever remote
entity was missing; but the repository lookup runs before the deletion
branch and its failure always propagates as an error. -/
theorem update_file_delete_suppression_scope (env : DeleteEnv) (path : String) :
    (∀ msg, env.getRepo = .ok () → delete_attempt env path = .error msg →
      containsNotFound msg = true → update_file_delete env path = .ok false) ∧
    (∀ msg, env.getRepo = .error msg →
      update_file_delete env path = .error ("Failed to update file: " ++ msg)) := by
  constructor
  · intro msg h1 h2 h3
    simp [update_file_delete, h1, h2, h3]
  · intro msg h1
    simp [update_file_delete, h1]

/-- A remote state in which the repository lookup itself fails with a
"Not Found" message. -/
def repoMissingEnv : DeleteEnv where
  getRepo := .error "404 Not Found"
  getContents := .error "404 Not Found"
  deleteFile := fun _ => .ok ()

/-- C10 (counterexample): when the repository lookup fails with a message
containing "Not Found", the deletion call does NOT return success — the
suppression does not cover the repository lookup. -/
theorem update_file_delete_repo_lookup_not_suppressed :
    containsNotFound "404 Not Found" = true ∧
    update_file_delete repoMissingEnv "b.txt" =
      .error "Failed to update file: 404 Not Found" ∧
    ∀ b : Bool, update_file_delete repoMissingEnv "b.txt" ≠ .ok b := by
  refine ⟨by decide, rfl, ?_⟩
  intro b h
  cases h

end Supersonic

namespace Supersonic

/-- An `Api` whose file mutations go through the modelled deletion branch
of `GitHubAPI.update_file` and whose other calls succeed, creating the PR
at a fixed URL. -/
def deleteApi (env : DeleteEnv) : Api where
  createBranch := fun _ _ _ => .ok ()
  updateFile := fun _ p c _ _ =>
    match c with
    | none => (update_file_delete env p).map (fun _ => ())
    | some _ => .ok ()
  createPull := fun _ _ _ _ _ _ => .ok "https://github.com/o/r/pull/1"
  addLabels := fun _ _ _ => .ok ()
  addReviewers := fun _ _ _ => .ok ()
  enableAutoMerge := fun _ _ _ => .ok ()

/-- C6: deleting a file that is already absent on the branch (the lookup
fails with a "Not Found" message) is absorbed as a successful no-op, and
the pipeline carries on to create the PR. -/
theorem delete_absent_file_is_noop (env : DeleteEnv) (path msg : String)
    (appName : Option String) (ts : Nat) (repo : String)
    (h1 : env.getRepo = .ok ()) (h2 : env.getContents = .error msg)
    (h3 : containsNotFound msg = true) :
    update_file_delete env path = .ok false ∧
    create_pr (deleteApi env) appName ts {} repo [(path, none)] (some (.obj {})) [] =
      (.ok "https://github.com/o/r/pull/1",
       [.createBranch repo (branchName appName ts) "main",
        updCall repo (branchName appName ts) (path, none),
        .createPull repo "" "" (branchName appName ts) "main" false]) := by
  have hdel : update_file_delete env path = .ok false := by
    simp [update_file_delete, delete_attempt, h1, h2, h3]
  refine ⟨hdel, ?_⟩
  have hp : pyIntParse (lastSeg "https://github.com/o/r/pull/1") = some 1 := by decide
  simp only [create_pr, prepare_pr_config, List.isEmpty_nil, if_true, updateLoop,
    deleteApi, hdel, Except.map_ok, hp, metadataPhase, metaSteps, runMeta, updCall,
    updMessage]
  simp [Except.map, updMessage]

end Supersonic

namespace Supersonic

/-- C8: the PR id is derived by integer-parsing the URL's trailing path
segment; when that segment does not parse, `create_pr` raises the wrapped
`int()` error and issues no metadata-attachment call. -/
theorem pr_number_parse_failure_fails_loudly (api : Api) (appName : Option String)
    (ts : Nat) (defaultCfg : PRConfig) (repo : String)
    (changes : List (String × Option String)) (cfg : PRConfig) (url : String)
    (hcb : api.createBranch repo (branchName appName ts) cfg.base_branch = .ok ())
    (hul : (updateLoop api repo (branchName appName ts) changes
        [.createBranch repo (branchName appName ts) cfg.base_branch]).2 = .ok ())
    (hcp : api.createPull repo cfg.title cfg.description (branchName appName ts)
        cfg.base_branch cfg.draft = .ok url)
    (hpi : pyIntParse (lastSeg url) = none) :
    create_pr api appName ts defaultCfg repo changes (some (.obj cfg)) [] =
      (.error (.gitHubError ("Failed to create PR: " ++ intErrMsg (lastSeg url))),
       .createBranch repo (branchName appName ts) cfg.base_branch ::
         (updCalls repo (branchName appName ts) changes ++
          [.createPull repo cfg.title cfg.description (branchName appName ts)
            cfg.base_branch cfg.draft])) ∧
    ∀ c ∈ (.createBranch repo (branchName appName ts) cfg.base_branch ::
         (updCalls repo (branchName appName ts) changes ++
          [.createPull repo cfg.title cfg.description (branchName appName ts)
            cfg.base_branch cfg.draft]) : List Call),
      c.isMeta = false := by
  constructor
  · rcases hq : updateLoop api repo (branchName appName ts) changes
        [.createBranch repo (branchName appName ts) cfg.base_branch] with ⟨tr1, res⟩
    rw [hq] at hul
    simp only at hul
    subst hul
    have htr1 := updateLoop_ok_trace api repo (branchName appName ts) changes _ _ hq
    simp only [create_pr, prepare_pr_config, List.isEmpty_nil, if_true, hcb, hq, hcp, hpi]
    rw [htr1]
    simp
  · intro c hc
    rcases List.mem_cons.mp hc with rfl | hc2
    · rfl
    · rcases List.mem_append.mp hc2 with hc3 | hc4
      · obtain ⟨e, -, rfl⟩ := List.mem_map.mp hc3
        rfl
      · rcases List.mem_singleton.mp hc4 with rfl
        rfl

/-- C4: no successful `create_pr` run ever issues a team-reviewer
attachment call — the orchestrator has no team-reviewer step, even when
the resolved configuration carries a non-empty `team_reviewers` sequence
(contradicting the repository's own test
`test_create_pr_with_team_reviewers`). -/
theorem team_reviewers_never_attached (api : Api) (appName : Option String) (ts : Nat)
    (defaultCfg : PRConfig) (repo : String) (changes : List (String × Option String))
    (config : Option ConfigArg) (kwargs : List (String × KwVal)) (url : String)
    (tr : List Call)
    (h : create_pr api appName ts defaultCfg repo changes config kwargs = (.ok url, tr)) :
    ∀ c ∈ tr, c.isTeamReviewers = false := by
  obtain ⟨cfg, ms, hprep, htr, hmem⟩ := create_pr_ok_trace api appName ts defaultCfg repo
    changes config kwargs url tr h
  intro c hc
  rw [htr] at hc
  rcases List.mem_cons.mp hc with rfl | hc2
  · rfl
  · rcases List.mem_append.mp hc2 with hc3 | hc4
    · obtain ⟨e, -, rfl⟩ := List.mem_map.mp hc3
      rfl
    · rcases List.mem_cons.mp hc4 with rfl | hc5
      · rfl
      · exact (hmem c hc5).2

end Supersonic

namespace Granite

/-- The one-hunk unified diff changing `"old content\nunchanged"` to
`"new content\nunchanged"`: header, index and file marker lines, one `@@`
hunk, a removed line, an added line and the context line (which, in
unified-diff format, carries a leading space). -/
def c5Diff : String :=
  "diff --git a/test.txt b/test.txt\n" ++
  "index abc..def\n" ++
  "--- a/test.txt\n" ++
  "+++ b/test.txt\n" ++
  "@@ -1,2 +1,2 @@\n" ++
  "-old content\n" ++
  "+new content\n" ++
  " unchanged"

/-- C5 (counterexample): `DiffParser.parse` does not reconstruct
`"new content\nunchanged"` for the round-trip diff — the context line is
carried over verbatim, leading space included. -/
theorem parse_roundtrip_not_exact :
    parse c5Diff ≠ [("test.txt", "new content\nunchanged")] ∧
    parse c5Diff = [("test.txt", "new content\n unchanged")] := by
  constructor
  · decide
  · decide

/-- C5 (amended): on the round-trip diff `DiffParser.parse` reconstructs
`"new content\n unchanged"` — `+` lines contribute with their `+` prefix
stripped, while context lines contribute verbatim, keeping the leading
space of the unified-diff column. -/
theorem parse_roundtrip_keeps_context_space :
    parse c5Diff = [("test.txt", "new content\n unchanged")] := by
  decide

end Granite

namespace Supersonic

/-- A remote that accepts every call and returns a fixed PR URL. -/
def okApi : Api where
  createBranch := fun _ _ _ => .ok ()
  updateFile := fun _ _ _ _ _ => .ok ()
  createPull := fun _ _ _ _ _ _ => .ok "https://github.com/test/pr/1"
  addLabels := fun _ _ _ => .ok ()
  addReviewers := fun _ _ _ => .ok ()
  enableAutoMerge := fun _ _ _ => .ok ()

/-- A remote that rejects the update of `"b.txt"` and accepts all else. -/
def failSecondApi : Api where
  createBranch := fun _ _ _ => .ok ()
  updateFile := fun _ p _ _ _ =>
    if p = "b.txt" then .error "Failed to update file: boom" else .ok ()
  createPull := fun _ _ _ _ _ _ => .ok "https://github.com/test/pr/1"
  addLabels := fun _ _ _ => .ok ()
  addReviewers := fun _ _ _ => .ok ()
  enableAutoMerge := fun _ _ _ => .ok ()

/-- A remote whose PR-create call returns a URL with a non-numeric
trailing segment. -/
def badUrlApi : Api where
  createBranch := fun _ _ _ => .ok ()
  updateFile := fun _ _ _ _ _ => .ok ()
  createPull := fun _ _ _ _ _ _ => .ok "https://github.com/test/pr/abc"
  addLabels := fun _ _ _ => .ok ()
  addReviewers := fun _ _ _ => .ok ()
  enableAutoMerge := fun _ _ _ => .ok ()

/-- A configuration requesting two team reviewers, as in
`test_create_pr_with_team_reviewers`. -/
def teamCfg : PRConfig :=
  { team_reviewers := ["team1", "team2"] }

/-- A remote state where the looked-up file is absent ("Not Found") but
the repository lookup succeeds. -/
def absentFileEnv : DeleteEnv where
  getRepo := .ok ()
  getContents := .error "404 Not Found"
  deleteFile := fun _ => .ok ()

/-- The call trace of the single-file success run used as a witness. -/
def c1Trace : List Call :=
  [.createBranch "o/r" "supersonic/0" "main",
   .updateFile "o/r" "a.txt" (some "hello") "Update a.txt" "supersonic/0",
   .createPull "o/r" "" "" "supersonic/0" "main" false]

theorem create_pr_call_discipline_witness :
    ([("a.txt", (some "hello" : Option String))] ≠
        ([] : List (String × Option String))) ∧
    ∃ (cfg : PRConfig) (ms : List Call),
      c1Trace = .createBranch "o/r" (branchName (some "supersonic") 0) cfg.base_branch ::
          (updCalls "o/r" (branchName (some "supersonic") 0) [("a.txt", some "hello")] ++
           .createPull "o/r" cfg.title cfg.description (branchName (some "supersonic") 0)
             cfg.base_branch cfg.draft :: ms) ∧
      (∀ c ∈ ms, c.isMeta = true) ∧
      (c1Trace.filter Call.isBranch).length = 1 ∧
      c1Trace.filter Call.isUpdate =
        updCalls "o/r" (branchName (some "supersonic") 0) [("a.txt", some "hello")] ∧
      (c1Trace.filter Call.isPull).length = 1 := by
  exact ⟨by decide,
    create_pr_call_discipline okApi (some "supersonic") 0 {} "o/r"
      [("a.txt", some "hello")] none [] "https://github.com/test/pr/1" c1Trace
      (by decide) (by rfl)⟩

end Supersonic

namespace Supersonic

theorem create_pr_aborts_on_second_update_failure_witness :
    failSecondApi.updateFile "o/r" "a.txt" (some "1")
        (updMessage "a.txt" (some "1")) (branchName (some "supersonic") 0) = .ok () ∧
    failSecondApi.updateFile "o/r" "b.txt" (some "2")
        (updMessage "b.txt" (some "2")) (branchName (some "supersonic") 0) =
      .error "Failed to update file: boom" ∧
    create_pr failSecondApi (some "supersonic") 0 {} "o/r"
        [("a.txt", some "1"), ("b.txt", some "2"), ("c.txt", some "3")]
        (some (.obj {})) [] =
      (.error (.gitHubError ("Failed to create PR: " ++ "Failed to update file: boom")),
       [.createBranch "o/r" (branchName (some "supersonic") 0) (PRConfig.base_branch {}),
        updCall "o/r" (branchName (some "supersonic") 0) ("a.txt", some "1"),
        updCall "o/r" (branchName (some "supersonic") 0) ("b.txt", some "2")]) := by
  refine ⟨by rfl, by rfl, ?_⟩
  exact (create_pr_aborts_on_second_update_failure failSecondApi (some "supersonic") 0 {}
    "o/r" {} "a.txt" "b.txt" "c.txt" (some "1") (some "2") (some "3")
    "Failed to update file: boom" (by decide) (by decide)
    (by rfl) (by rfl) (by rfl)).1

end Supersonic

namespace Supersonic

theorem config_conflict_always_fails_witness :
    ([("title", KwVal.s "T")] ≠ ([] : List (String × KwVal))) ∧
    prepare_pr_config {} (some (.obj {})) [("title", KwVal.s "T")] =
      .error (.valueError
        "Cannot provide both PRConfig and keyword arguments. Choose one approach.") ∧
    create_pr okApi none 0 {} "o/r" [("a.txt", some "x")] (some (.obj {}))
        [("title", KwVal.s "T")] =
      (.error (.valueError
        "Cannot provide both PRConfig and keyword arguments. Choose one approach."), []) := by
  refine ⟨by decide, ?_, ?_⟩
  · exact (config_conflict_always_fails okApi none 0 {} "o/r" [("a.txt", some "x")]
      (.obj {}) [("title", KwVal.s "T")] (by decide)).1
  · exact (config_conflict_always_fails okApi none 0 {} "o/r" [("a.txt", some "x")]
      (.obj {}) [("title", KwVal.s "T")] (by decide)).2

/-- The call trace of the team-reviewer success run used as a witness. -/
def c4Trace : List Call :=
  [.createBranch "owner/repo" "supersonic/0" "main",
   .updateFile "owner/repo" "test.txt" (some "test content") "Update test.txt" "supersonic/0",
   .createPull "owner/repo" "" "" "supersonic/0" "main" false]

theorem team_reviewers_never_attached_witness :
    teamCfg.team_reviewers = ["team1", "team2"] ∧
    create_pr okApi (some "supersonic") 0 {} "owner/repo"
        [("test.txt", some "test content")] (some (.obj teamCfg)) [] =
      (.ok "https://github.com/test/pr/1", c4Trace) ∧
    ∀ c ∈ c4Trace, c.isTeamReviewers = false := by
  refine ⟨rfl, by rfl, ?_⟩
  exact team_reviewers_never_attached okApi (some "supersonic") 0 {} "owner/repo"
    [("test.txt", some "test content")] (some (.obj teamCfg)) []
    "https://github.com/test/pr/1" c4Trace (by rfl)

theorem delete_absent_file_is_noop_witness :
    absentFileEnv.getRepo = .ok () ∧
    absentFileEnv.getContents = .error "404 Not Found" ∧
    containsNotFound "404 Not Found" = true ∧
    update_file_delete absentFileEnv "b.txt" = .ok false ∧
    create_pr (deleteApi absentFileEnv) none 0 {} "o/r" [("b.txt", none)]
        (some (.obj {})) [] =
      (.ok "https://github.com/o/r/pull/1",
       [.createBranch "o/r" (branchName none 0) "main",
        updCall "o/r" (branchName none 0) ("b.txt", none),
        .createPull "o/r" "" "" (branchName none 0) "main" false]) := by
  refine ⟨rfl, rfl, by decide, ?_, ?_⟩
  · exact (delete_absent_file_is_noop absentFileEnv "b.txt" "404 Not Found" none 0 "o/r"
      rfl rfl (by decide)).1
  · exact (delete_absent_file_is_noop absentFileEnv "b.txt" "404 Not Found" none 0 "o/r"
      rfl rfl (by decide)).2

theorem create_branch_idempotent_witness :
    create_branch (some ⟨[("main", "s0")]⟩) "b" "main" =
      .ok ⟨[("main", "s0"), ("b", "s0")]⟩ ∧
    ∃ r2, create_branch (some ⟨[("main", "s0"), ("b", "s0")]⟩) "b" "main" = .ok r2 ∧
      findRef r2 "b" = findRef ⟨[("main", "s0"), ("b", "s0")]⟩ "b" := by
  refine ⟨by rfl, ?_⟩
  exact create_branch_idempotent ⟨[("main", "s0")]⟩ "b" "main"
    ⟨[("main", "s0"), ("b", "s0")]⟩ (by rfl)

end Supersonic

namespace Supersonic

theorem pr_number_parse_failure_fails_loudly_witness :
    pyIntParse (lastSeg "https://github.com/test/pr/abc") = none ∧
    create_pr badUrlApi (some "supersonic") 0 {} "o/r" [("a.txt", some "x")]
        (some (.obj {})) [] =
      (.error (.gitHubError ("Failed to create PR: " ++
        intErrMsg (lastSeg "https://github.com/test/pr/abc"))),
       .createBranch "o/r" (branchName (some "supersonic") 0) (PRConfig.base_branch {}) ::
         (updCalls "o/r" (branchName (some "supersonic") 0) [("a.txt", some "x")] ++
          [.createPull "o/r" (PRConfig.title {}) (PRConfig.description {})
            (branchName (some "supersonic") 0) (PRConfig.base_branch {})
            (PRConfig.draft {})])) ∧
    ∀ c ∈ (.createBranch "o/r" (branchName (some "supersonic") 0) (PRConfig.base_branch {}) ::
         (updCalls "o/r" (branchName (some "supersonic") 0) [("a.txt", some "x")] ++
          [.createPull "o/r" (PRConfig.title {}) (PRConfig.description {})
            (branchName (some "supersonic") 0) (PRConfig.base_branch {})
            (PRConfig.draft {})]) : List Call),
      c.isMeta = false := by
  refine ⟨by decide, ?_, ?_⟩
  · exact (pr_number_parse_failure_fails_loudly badUrlApi (some "supersonic") 0 {} "o/r"
      [("a.txt", some "x")] {} "https://github.com/test/pr/abc"
      (by rfl) (by rfl) (by rfl) (by decide)).1
  · exact (pr_number_parse_failure_fails_loudly badUrlApi (some "supersonic") 0 {} "o/r"
      [("a.txt", some "x")] {} "https://github.com/test/pr/abc"
      (by rfl) (by rfl) (by rfl) (by decide)).2

theorem unknown_kwargs_rejected_witness :
    (unknownKeys [("bogus", KwVal.s "x")] ≠ []) ∧
    create_pr_from_content okApi none 0 {} "o/r" "content" "a.txt" none false
        [("bogus", KwVal.s "x")] =
      (.error (.valueError
        ("Unknown arguments: " ++ pyJoin ", " (unknownKeys [("bogus", KwVal.s "x")]))), []) := by
  exact ⟨by decide,
    unknown_kwargs_rejected okApi none 0 {} "o/r" "content" "a.txt" none false
      [("bogus", KwVal.s "x")] (by decide)⟩

theorem update_file_delete_suppression_scope_witness :
    update_file_delete absentFileEnv "b.txt" = .ok false ∧
    update_file_delete repoMissingEnv "b.txt" =
      .error ("Failed to update file: " ++ "404 Not Found") := by
  constructor
  · exact (update_file_delete_suppression_scope absentFileEnv "b.txt").1 "404 Not Found"
      rfl (by rfl) (by decide)
  · exact (update_file_delete_suppression_scope repoMissingEnv "b.txt").2 "404 Not Found" rfl

end Supersonic
